import Mathlib

/-!
Shallow embedding of the dual-backend library-management core
(`mysite/library`): the Mongo repository (`mongo_repository.py`), the
relational model (`models.py`, `forms.py`), the session data-source
selector (`data_sources.py`) and the dispatching views (`views.py`).
Python identifiers are kept where Lean allows; leading underscores are
dropped (`_object_id` becomes `objectId`, `_require_client` becomes
`requireClient`, and so on).
-/

namespace Library

/-- The exception kinds raised by the code under `mysite/library`.
`mongoUnavailable` is `MongoUnavailableError`, `runtimeError` is a plain
`RuntimeError`, `http404` is `django.http.Http404`, `valueError` is
`ValueError` and `validationError` is `django.core.exceptions.ValidationError`. -/
inductive PyError where
  | mongoUnavailable (msg : String)
  | runtimeError (msg : String)
  | http404 (msg : String)
  | valueError (msg : String)
  | validationError (msg : String)
  deriving DecidableEq

/-- `str(exc)`: the message carried by the exception. -/
def PyError.msg : PyError → String
  | .mongoUnavailable m => m
  | .runtimeError m => m
  | .http404 m => m
  | .valueError m => m
  | .validationError m => m

/-- Whether the exception is caught by `except MongoUnavailableError`. -/
def PyError.isMongoUnavailable : PyError → Bool
  | .mongoUnavailable _ => true
  | _ => false

/-- Runtime facts the Mongo repository depends on: whether `pymongo`
imported (`MongoClient is not None`), whether the `ping` in
`_require_client` succeeds, and the text of the `PyMongoError` when it
does not. -/
structure MongoEnv where
  driverPresent : Bool
  serverReachable : Bool
  failureDetail : String
  deriving DecidableEq

/-- `MongoDataSource.is_available`: `MongoClient is not None`. -/
def is_available (env : MongoEnv) : Bool :=
  env.driverPresent

/-- `MongoDataSource._require_client`: raises `MongoUnavailableError` when
pymongo is missing or when connecting/pinging the server fails. -/
def requireClient (env : MongoEnv) : Except PyError Unit :=
  if !(is_available env) then
    .error (.mongoUnavailable
      "pymongo no está instalado. Ejecuta `pip install pymongo` para habilitar la fuente Mongo.")
  else if !env.serverReachable then
    .error (.mongoUnavailable ("No se pudo conectar a MongoDB (" ++ env.failureDetail ++ ")."))
  else
    .ok ()

/-- Lexicographic comparison of character lists: the order Python uses to
compare strings (by code point). -/
def charListLe : List Char → List Char → Bool
  | [], _ => true
  | _ :: _, [] => false
  | c :: cs, d :: ds => if c < d then true else if d < c then false else charListLe cs ds

/-- Python string `<=`. -/
def strLe (a b : String) : Bool :=
  charListLe a.data b.data

/-- `int(s)` on an all-digit string. -/
def strToNat (s : String) : Nat :=
  s.data.foldl (fun n c => n * 10 + (c.toNat - '0'.toNat)) 0

/-- ObjectId validity: `bson.ObjectId(str(raw))` accepts exactly
24-character hexadecimal strings. -/
def validObjectId (s : String) : Bool :=
  s.length == 24 && s.data.all (fun c => c.isDigit || ('a' ≤ c && c ≤ 'f') || ('A' ≤ c && c ≤ 'F'))

/-- `MongoDataSource._object_id`: with pymongo absent (`ObjectId is None`)
raises a plain `RuntimeError`; on an invalid token raises
`Http404('Identificador no válido')`; otherwise returns the id. -/
def objectId (env : MongoEnv) (rawId : String) : Except PyError String :=
  if !env.driverPresent then
    .error (.runtimeError "pymongo no está disponible")
  else if validObjectId rawId then
    .ok rawId
  else
    .error (.http404 "Identificador no válido")

/-- A document in the `authors` collection. -/
structure AuthorDoc where
  id : String
  name : String
  deriving DecidableEq

/-- A document in the `library_users` collection. -/
structure UserDoc where
  id : String
  name : String
  email : String
  deriving DecidableEq

/-- A document in the `books` collection. `title = ""` plays the role of a
missing/falsy `title` field and `authorId = ""` that of a missing
`author_id`. -/
structure BookDoc where
  id : String
  title : String
  year : Option Nat
  authorId : String
  deriving DecidableEq

/-- A document in the `loans` collection (dates are stored as strings,
see `_serialize_date`). -/
structure LoanDoc where
  id : String
  bookId : String
  userId : String
  startDate : String
  endDate : String
  returned : Bool
  deriving DecidableEq

/-- The state of the Mongo database, one list per collection, in natural
(insertion) order, which is the order `find` returns documents in. -/
structure MongoDB where
  authors : List AuthorDoc
  users : List UserDoc
  books : List BookDoc
  loans : List LoanDoc
  deriving DecidableEq

/-- Dataclass `MongoAuthor`. -/
structure MongoAuthor where
  id : String
  name : String
  deriving DecidableEq

/-- Dataclass `MongoUser`. -/
structure MongoUser where
  id : String
  name : String
  email : String := ""
  deriving DecidableEq

/-- Dataclass `MongoBook`; `isLoanedFlag` is the `_is_loaned` field. -/
structure MongoBook where
  id : String
  title : String
  year : Option Nat
  author : MongoAuthor
  isLoanedFlag : Bool := false
  deriving DecidableEq

/-- `MongoBook.is_loaned`. -/
def MongoBook.is_loaned (b : MongoBook) : Bool :=
  b.isLoanedFlag

/-- Dataclass `MongoLoan`. -/
structure MongoLoan where
  id : String
  user : MongoUser
  start_date : String
  end_date : String
  returned : Bool
  book : Option MongoBook := none
  deriving DecidableEq

/-- Dataclass `MongoRating` (`created_at` modelled as a Nat timestamp). -/
structure MongoRating where
  id : String
  name : String
  comments : String
  rating : Nat
  created_at : Nat
  deriving DecidableEq

/-- `_safe_title`: `doc.get('title') or 'Sin título'`. -/
def safeTitle (doc : BookDoc) : String :=
  if doc.title = "" then "Sin título" else doc.title

def mkMongoAuthor (a : AuthorDoc) : MongoAuthor :=
  { id := a.id, name := a.name }

def mkMongoUser (u : UserDoc) : MongoUser :=
  { id := u.id, name := u.name, email := u.email }

/-- `dict.get(key, default)` over an association list. -/
def dictGetAuthor (d : List (String × MongoAuthor)) (k : String) (dflt : MongoAuthor) : MongoAuthor :=
  match d.find? (fun p => p.1 == k) with
  | some p => p.2
  | none => dflt

/-- `dict.get(key, default)` over an association list. -/
def dictGetUser (d : List (String × MongoUser)) (k : String) (dflt : MongoUser) : MongoUser :=
  match d.find? (fun p => p.1 == k) with
  | some p => p.2
  | none => dflt

/-- `MongoDataSource._authors_by_id`: the dict `{str(_id): MongoAuthor}`
for the author documents whose id is among the given (truthy) ids. -/
def authorsById (db : MongoDB) (authorIds : List String) : List (String × MongoAuthor) :=
  let ids := authorIds.filter (fun aid => aid != "")
  (db.authors.filter (fun a => ids.contains a.id)).map (fun a => (a.id, mkMongoAuthor a))

/-- `MongoDataSource._users_by_id`: the dict `{str(_id): MongoUser}` for
the user documents whose id is among the given (truthy) ids. -/
def usersById (db : MongoDB) (userIds : List String) : List (String × MongoUser) :=
  let ids := userIds.filter (fun uid => uid != "")
  (db.users.filter (fun u => ids.contains u.id)).map (fun u => (u.id, mkMongoUser u))

/-- Assembling one `MongoLoan` from a loan document as `_loans_by_book`
does: the user is looked up in the prefetched dict and degrades to the
`Usuario desconocido` sentinel when absent. -/
def mkLoanFromDoc (users : List (String × MongoUser)) (doc : LoanDoc) : MongoLoan :=
  { id := doc.id
    user := dictGetUser users doc.userId { id := "", name := "Usuario desconocido" }
    start_date := doc.startDate
    end_date := doc.endDate
    returned := doc.returned
    book := none }

/-- `MongoDataSource._loans_by_book`, rendered as the lookup
`grouped.get(bid, [])` on the grouped dict: the cursor filters loans whose
`book_id` is in `bookIds`, users are prefetched with `_users_by_id`, and
grouping by `str(book_id)` keeps cursor order inside each group. -/
def loansByBook (db : MongoDB) (bookIds : List String) (bid : String) : List MongoLoan :=
  let cursor := db.loans.filter (fun l => bookIds.contains l.bookId)
  let users := usersById db (cursor.map (fun l => l.userId))
  (cursor.filter (fun l => l.bookId == bid)).map (mkLoanFromDoc users)

namespace MongoRepo

/-- `MongoDataSource.list_books`: no sort is applied to the `books`
cursor; each book gets its author (sentinel `Autor desconocido` when
missing) and `_is_loaned := any active loan`. -/
def list_books (env : MongoEnv) (db : MongoDB) : Except PyError (List MongoBook) :=
  match requireClient env with
  | .error e => .error e
  | .ok _ =>
    let docs := db.books
    if docs.isEmpty then .ok []
    else
      let authorMap := authorsById db
        (docs.filterMap (fun d => if d.authorId != "" then some d.authorId else none))
      let bookIds := docs.map (fun d => d.id)
      .ok (docs.map (fun doc =>
        let author := dictGetAuthor authorMap doc.authorId { id := "", name := "Autor desconocido" }
        let loans := loansByBook db bookIds doc.id
        { id := doc.id
          title := safeTitle doc
          year := doc.year
          author := author
          isLoanedFlag := loans.any (fun l => !l.returned) }))

/-- One loan as assembled inside the `get_book_detail` loop: the user from
the prefetched dict (sentinel when missing), the book aliasing the
summary. -/
def buildDetailLoan (users : List (String × MongoUser)) (bookSummary : MongoBook)
    (loanDoc : LoanDoc) : MongoLoan :=
  { mkLoanFromDoc users loanDoc with book := some bookSummary }

/-- One iteration of the `get_book_detail` loop: remember the first
unreturned loan as active, append the loan to the history. -/
def detailStep (users : List (String × MongoUser)) (bookSummary : MongoBook)
    (acc : Option MongoLoan × List MongoLoan) (loanDoc : LoanDoc) :
    Option MongoLoan × List MongoLoan :=
  let loan := buildDetailLoan users bookSummary loanDoc
  let active := if !loan.returned && acc.1.isNone then some loan else acc.1
  (active, acc.2 ++ [loan])

/-- `MongoDataSource.get_book_detail`: parses the id, loads the book
(404 when absent), resolves the author (sentinel when missing), assembles
loans sorted by `start_date` descending with sentinel users, picks the
first unreturned loan as active, and finally writes `_is_loaned` into the
book summary — a mutation every assembled loan observes through the shared
reference, rendered here by rebuilding them with the final book. -/
def get_book_detail (env : MongoEnv) (db : MongoDB) (rawBookId : String) :
    Except PyError (MongoBook × Option MongoLoan × List MongoLoan) :=
  match objectId env rawBookId with
  | .error e => .error e
  | .ok bookOid =>
    match requireClient env with
    | .error e => .error e
    | .ok _ =>
      match db.books.find? (fun b => b.id == bookOid) with
      | none => .error (.http404 "Libro no encontrado")
      | some doc =>
        let authorDoc : Option AuthorDoc :=
          if doc.authorId != "" then db.authors.find? (fun a => a.id == doc.authorId) else none
        let author : MongoAuthor :=
          match authorDoc with
          | some a => mkMongoAuthor a
          | none => { id := "", name := "Autor desconocido" }
        let loanDocs := db.loans.filter (fun l => l.bookId == bookOid)
        let users := usersById db (loanDocs.map (fun l => l.userId))
        let bookSummary : MongoBook :=
          { id := doc.id, title := safeTitle doc, year := doc.year, author := author }
        let sortedDocs := loanDocs.insertionSort (fun a b => strLe b.startDate a.startDate = true)
        let folded := sortedDocs.foldl (detailStep users bookSummary) (none, [])
        let finalBook : MongoBook := { bookSummary with isLoanedFlag := folded.1.isSome }
        let setBook := fun (l : MongoLoan) => { l with book := some finalBook }
        .ok (finalBook, folded.1.map setBook, folded.2.map setBook)

/-- `MongoDataSource.get_book`. -/
def get_book (env : MongoEnv) (db : MongoDB) (rawBookId : String) : Except PyError MongoBook :=
  match get_book_detail env db rawBookId with
  | .error e => .error e
  | .ok r => .ok r.1

/-- `MongoDataSource.get_user`: `self.db` is evaluated (connecting) before
the id is parsed; a missing user document is `Http404`. -/
def get_user (env : MongoEnv) (db : MongoDB) (rawUserId : String) : Except PyError MongoUser :=
  match requireClient env with
  | .error e => .error e
  | .ok _ =>
    match objectId env rawUserId with
    | .error e => .error e
    | .ok uoid =>
      match db.users.find? (fun u => u.id == uoid) with
      | none => .error (.http404 "Usuario no encontrado")
      | some u => .ok (mkMongoUser u)

/-- `MongoDataSource.get_loan`: loads the loan, then resolves its user and
book through `get_user`/`get_book`, both of which raise `Http404` when the
referenced document is missing. -/
def get_loan (env : MongoEnv) (db : MongoDB) (rawLoanId : String) : Except PyError MongoLoan :=
  match objectId env rawLoanId with
  | .error e => .error e
  | .ok loanOid =>
    match requireClient env with
    | .error e => .error e
    | .ok _ =>
      match db.loans.find? (fun l => l.id == loanOid) with
      | none => .error (.http404 "Préstamo no encontrado")
      | some doc =>
        match get_user env db doc.userId with
        | .error e => .error e
        | .ok user =>
          match get_book env db doc.bookId with
          | .error e => .error e
          | .ok book =>
            .ok { id := doc.id, user := user, start_date := doc.startDate,
                  end_date := doc.endDate, returned := doc.returned, book := some book }

/-- Input of `MongoBookForm.cleaned_data`: `year` is an `IntegerField`
with `min_value=0`, `author` a choice (`""` plays the missing value). -/
structure MongoBookInput where
  title : String
  year : Nat
  author : String
  deriving DecidableEq

/-- Input of `MongoLoanForm.cleaned_data` (dates as day numbers). -/
structure MongoLoanInput where
  user : String
  start_date : Nat
  end_date : Nat
  deriving DecidableEq

/-- `MongoDataSource._serialize_date`: a date renders to its ISO string;
day numbers render via `toString`. -/
def serialize_date (d : Nat) : String :=
  toString d

/-- `MongoDataSource.create_book`: the `year` payload entry is
`int(data.get('year')) if data.get('year') else None`, so a year of 0 is
stored as the missing value. -/
def create_book (env : MongoEnv) (db : MongoDB) (data : MongoBookInput) (freshId : String) :
    MongoDB × Except PyError String :=
  if data.author = "" then
    (db, .error (.valueError "El autor es obligatorio."))
  else
    match objectId env data.author with
    | .error e => (db, .error e)
    | .ok authorOid =>
      match requireClient env with
      | .error e => (db, .error e)
      | .ok _ =>
        let payload : BookDoc :=
          { id := freshId
            title := data.title
            year := if data.year ≠ 0 then some data.year else none
            authorId := authorOid }
        ({ db with books := db.books ++ [payload] }, .ok freshId)

/-- `MongoDataSource.update_book`: same `year` truthiness rule as
`create_book`; `author_id` only updated when the field is truthy. -/
def update_book (env : MongoEnv) (db : MongoDB) (rawBookId : String) (data : MongoBookInput) :
    MongoDB × Except PyError Unit :=
  match objectId env rawBookId with
  | .error e => (db, .error e)
  | .ok bookOid =>
    match (if data.author ≠ "" then (objectId env data.author).map some else Except.ok none) with
    | .error e => (db, .error e)
    | .ok authorOpt =>
      match requireClient env with
      | .error e => (db, .error e)
      | .ok _ =>
        ({ db with books := db.books.map (fun b =>
            if b.id == bookOid then
              { b with title := data.title
                       year := if data.year ≠ 0 then some data.year else none
                       authorId := match authorOpt with | some a => a | none => b.authorId }
            else b) },
         .ok ())

/-- `MongoDataSource.create_loan`: re-queries the current loan documents
for an active loan of the target book immediately before insertion and
raises `ValueError` on conflict, leaving the store untouched. -/
def create_loan (env : MongoEnv) (db : MongoDB) (rawBookId : String)
    (data : MongoLoanInput) (freshId : String) : MongoDB × Except PyError String :=
  match objectId env rawBookId with
  | .error e => (db, .error e)
  | .ok bookOid =>
    match requireClient env with
    | .error e => (db, .error e)
    | .ok _ =>
      match db.loans.find? (fun l => l.bookId == bookOid && l.returned == false) with
      | some _ => (db, .error (.valueError "El libro ya está prestado."))
      | none =>
        if data.user = "" then
          (db, .error (.valueError "El usuario es obligatorio."))
        else
          match objectId env data.user with
          | .error e => (db, .error e)
          | .ok userOid =>
            let payload : LoanDoc :=
              { id := freshId
                bookId := bookOid
                userId := userOid
                startDate := serialize_date data.start_date
                endDate := serialize_date data.end_date
                returned := false }
            ({ db with loans := db.loans ++ [payload] }, .ok freshId)

/-- `MongoDataSource.mark_loan_returned`: `$set returned: True` on the
loan with the given id (ids are unique, so the map touches one row). -/
def mark_loan_returned (env : MongoEnv) (db : MongoDB) (rawLoanId : String) :
    MongoDB × Except PyError Unit :=
  match objectId env rawLoanId with
  | .error e => (db, .error e)
  | .ok loanOid =>
    match requireClient env with
    | .error e => (db, .error e)
    | .ok _ =>
      ({ db with loans := db.loans.map (fun l =>
          if l.id == loanOid then { l with returned := true } else l) },
       .ok ())

end MongoRepo

/-! ## Relational backend (`models.py`, `forms.py`) -/

/-- A row of `library_author`. -/
structure SqlAuthor where
  pk : Nat
  name : String
  deriving DecidableEq

/-- A row of `library_book`. -/
structure SqlBook where
  pk : Nat
  title : String
  year : Nat
  authorPk : Nat
  deriving DecidableEq

/-- A row of `library_libraryuser`. -/
structure SqlUser where
  pk : Nat
  name : String
  email : String
  deriving DecidableEq

/-- A row of `library_loan` (dates as day numbers). -/
structure SqlLoan where
  pk : Nat
  bookPk : Nat
  userPk : Nat
  startDate : Nat
  endDate : Nat
  returned : Bool
  deriving DecidableEq

/-- The relational store, rows in table order. -/
structure SqlDB where
  authors : List SqlAuthor
  books : List SqlBook
  users : List SqlUser
  loans : List SqlLoan
  deriving DecidableEq

/-- `Book.is_loaned`: `self.loans.filter(returned=False).exists()`. -/
def SqlBook.is_loaned (b : SqlBook) (db : SqlDB) : Bool :=
  db.loans.any (fun l => l.bookPk == b.pk && l.returned == false)

/-- An in-memory `Loan` model instance; `pk = none` before the first
save, as in `Loan.clean`'s `if self.pk` check. -/
structure SqlLoanInstance where
  pk : Option Nat
  bookPk : Nat
  userPk : Nat
  startDate : Nat
  endDate : Nat
  returned : Bool
  deriving DecidableEq

/-- `Loan.clean`: end-before-start raises a field `ValidationError`; for an
unreturned loan, a fresh query for active loans of the same book — the
instance itself excluded when it has a pk — raises the conflict
`ValidationError`. (The `self.end_date and self.start_date` guard is a
None-check; dates are always set on the paths modelled here.) -/
def loanClean (db : SqlDB) (loan : SqlLoanInstance) : Except PyError Unit :=
  if loan.endDate < loan.startDate then
    .error (.validationError "La fecha de fin no puede ser anterior a la fecha de inicio.")
  else if !loan.returned && db.loans.any (fun l =>
      l.bookPk == loan.bookPk && l.returned == false &&
        (match loan.pk with | some p => l.pk != p | none => true)) then
    .error (.validationError "El libro ya está prestado.")
  else
    .ok ()

/-- `LoanForm.cleaned_data` (the `user`, `start_date`, `end_date` fields). -/
structure SqlLoanInput where
  userPk : Nat
  startDate : Nat
  endDate : Nat
  deriving DecidableEq

/-- Errors `LoanForm.clean` can attach. -/
inductive FormError where
  | endDateBeforeStart
  | bookAlreadyLoaned
  deriving DecidableEq

/-- `LoanForm.clean`: adds the date error, then — the bound instance being
a fresh unreturned `Loan`, so `loan_is_active` holds — raises the conflict
error when `book.is_loaned()`. Both errors end up attached to the form. -/
def loanFormErrors (db : SqlDB) (book : SqlBook) (inp : SqlLoanInput) : List FormError :=
  let dateErrs := if inp.endDate < inp.startDate then [FormError.endDateBeforeStart] else []
  let conflictErrs := if book.is_loaned db then [FormError.bookAlreadyLoaned] else []
  dateErrs ++ conflictErrs

/-- Outcome of the relational create-loan POST path. -/
inductive SqlCreateLoanResult where
  | created (pk : Nat)
  | invalid (errors : List FormError)
  | cleanFailed (e : PyError)
  deriving DecidableEq

/-- The relational `createLoan` write path (`views.loan_create`, SQL
branch, POST): validate the form; on success `LoanForm.save` builds a
fresh unreturned instance, runs `full_clean` (which re-queries active
loans) and inserts the row. -/
def sqlCreateLoan (db : SqlDB) (book : SqlBook) (inp : SqlLoanInput) (freshPk : Nat) :
    SqlDB × SqlCreateLoanResult :=
  let errs := loanFormErrors db book inp
  if errs.isEmpty then
    let loan : SqlLoanInstance :=
      { pk := none, bookPk := book.pk, userPk := inp.userPk
        startDate := inp.startDate, endDate := inp.endDate, returned := false }
    match loanClean db loan with
    | .error e => (db, .cleanFailed e)
    | .ok _ =>
      let row : SqlLoan :=
        { pk := freshPk, bookPk := loan.bookPk, userPk := loan.userPk
          startDate := loan.startDate, endDate := loan.endDate, returned := loan.returned }
      ({ db with loans := db.loans ++ [row] }, .created freshPk)
  else
    (db, .invalid errs)

/-- Whether the outcome of the relational create-loan path carries the
`El libro ya está prestado.` conflict. -/
def sqlFailsWithConflict (r : SqlCreateLoanResult) : Bool :=
  match r with
  | .invalid errs => errs.contains FormError.bookAlreadyLoaned
  | .cleanFailed e => e == PyError.validationError "El libro ya está prestado."
  | .created _ => false

/-! ## Data-source selector (`data_sources.py`) and request state -/

def DATA_SOURCE_SQL : String := "sql"

def DATA_SOURCE_MONGO : String := "mongo"

def dataSourceChoices : List String := [DATA_SOURCE_SQL, DATA_SOURCE_MONGO]

/-- The user session, reduced to the one key the app uses
(`library_data_source`); `none` when the key is absent. -/
structure Session where
  libraryDataSource : Option String
  deriving DecidableEq

/-- `get_active_data_source`: defaults and self-heals to `'sql'`. -/
def get_active_data_source (s : Session) : String :=
  let source := s.libraryDataSource.getD DATA_SOURCE_SQL
  if dataSourceChoices.contains source then source else DATA_SOURCE_SQL

/-- `set_active_data_source`: normalises unknown values to `'sql'` and
stores the result in the session. -/
def set_active_data_source (_s : Session) (source : String) : Session :=
  let normalized := if dataSourceChoices.contains source then source else DATA_SOURCE_SQL
  { libraryDataSource := some normalized }

/-- Levels of `django.contrib.messages`. -/
inductive MessageLevel where
  | info
  | success
  | warning
  | error
  deriving DecidableEq

/-- A user-visible notice. -/
structure Message where
  level : MessageLevel
  text : String
  deriving DecidableEq

/-- The per-request mutable state the views touch: the session and the
accumulated messages. -/
structure RequestState where
  session : Session
  messages : List Message
  deriving DecidableEq

def addMessage (req : RequestState) (lvl : MessageLevel) (txt : String) : RequestState :=
  { req with messages := req.messages ++ [{ level := lvl, text := txt }] }

/-! ## Views (`views.py`) -/

/-- Python `str.isdigit` (restricted to ASCII digits): nonempty and all
characters digits. -/
def pyIsDigit (s : String) : Bool :=
  s.length != 0 && s.data.all Char.isDigit

/-- `_parse_sql_id` on the string ids the `<str:...>` URL patterns
deliver: `str.isdigit` gates `int(raw)`. -/
def parse_sql_id (rawId : String) : Except PyError Nat :=
  if pyIsDigit rawId then
    .ok (strToNat rawId)
  else
    .error (.http404 "Identificador inválido")

/-- `_fallback_to_sql`: flash the error naming the exception, persist the
downgrade in the session, return `'sql'`. -/
def fallback_to_sql (req : RequestState) (excMsg : String) : RequestState × String :=
  let req1 := addMessage req .error
    ("No se pudo usar MongoDB: " ++ excMsg ++ ". Cambiamos automáticamente a SQLite.")
  let req2 := { req1 with session := set_active_data_source req1.session DATA_SOURCE_SQL }
  (req2, DATA_SOURCE_SQL)

/-- The repository calls a request makes, for counting attempts. -/
inductive BackendCall where
  | mongoListBooks
  | sqlListBooks
  deriving DecidableEq

/-- The `books` value handed to the `book_list` template. -/
inductive BooksPayload where
  | fromMongo (books : List MongoBook)
  | fromSql (books : List SqlBook)
  | absent
  deriving DecidableEq

/-- `Book.objects.select_related('author').all()`: the books under
`Book.Meta.ordering = ['title']`, i.e. sorted by title ascending. -/
def sqlListBooks (db : SqlDB) : List SqlBook :=
  db.books.insertionSort (fun a b => strLe a.title b.title = true)

/-- `views.book_list`: dispatch on the active source, catch only
`MongoUnavailableError`, fall back once to the relational query. The last
component records which repository operations ran, in order. -/
def book_list (env : MongoEnv) (mdb : MongoDB) (sdb : SqlDB) (req : RequestState) :
    RequestState × Except PyError (BooksPayload × Bool) × List BackendCall :=
  let dataSource := get_active_data_source req.session
  if dataSource = DATA_SOURCE_MONGO then
    match MongoRepo.list_books env mdb with
    | .ok bs =>
      (req, .ok (BooksPayload.fromMongo bs, dataSource == DATA_SOURCE_MONGO),
       [BackendCall.mongoListBooks])
    | .error e =>
      if e.isMongoUnavailable then
        let fb := fallback_to_sql req e.msg
        if fb.2 = DATA_SOURCE_SQL then
          (fb.1, .ok (BooksPayload.fromSql (sqlListBooks sdb), fb.2 == DATA_SOURCE_MONGO),
           [BackendCall.mongoListBooks, BackendCall.sqlListBooks])
        else
          (fb.1, .ok (BooksPayload.absent, fb.2 == DATA_SOURCE_MONGO),
           [BackendCall.mongoListBooks])
      else
        (req, .error e, [BackendCall.mongoListBooks])
  else
    (req, .ok (BooksPayload.fromSql (sqlListBooks sdb), dataSource == DATA_SOURCE_MONGO),
     [BackendCall.sqlListBooks])

/-- The context handed to the `book_detail` template. -/
inductive BookDetailPayload where
  | fromMongo (book : MongoBook) (active : Option MongoLoan) (history : List MongoLoan)
  | fromSql (book : SqlBook) (active : Option SqlLoan) (history : List SqlLoan)
  deriving DecidableEq

/-- `book.loans....all()` under `Loan.Meta.ordering = ['-start_date']`:
the loans of the book, newest start date first (stable). -/
def sqlLoansOf (db : SqlDB) (bookPk : Nat) : List SqlLoan :=
  (db.loans.insertionSort (fun a b => b.startDate ≤ a.startDate)).filter
    (fun l => l.bookPk == bookPk)

/-- The SQL branch of `views.book_detail`: parse the id, 404 on a missing
row, compute the active loan (`.filter(returned=False).first()`) and the
full history. -/
def sqlBookDetail (db : SqlDB) (libroId : String) : Except PyError BookDetailPayload :=
  match parse_sql_id libroId with
  | .error e => .error e
  | .ok pk =>
    match db.books.find? (fun b => b.pk == pk) with
    | none => .error (.http404 "No Book matches the given query.")
    | some book =>
      let history := sqlLoansOf db book.pk
      let active := history.find? (fun l => l.returned == false)
      .ok (.fromSql book active history)

/-- `views.book_detail`: same dispatch/fallback shape as `book_list`. -/
def book_detail (env : MongoEnv) (mdb : MongoDB) (sdb : SqlDB) (req : RequestState)
    (libroId : String) : RequestState × Except PyError BookDetailPayload :=
  let dataSource := get_active_data_source req.session
  if dataSource = DATA_SOURCE_MONGO then
    match MongoRepo.get_book_detail env mdb libroId with
    | .ok r => (req, .ok (BookDetailPayload.fromMongo r.1 r.2.1 r.2.2))
    | .error e =>
      if e.isMongoUnavailable then
        let fb := fallback_to_sql req e.msg
        if fb.2 = DATA_SOURCE_SQL then (fb.1, sqlBookDetail sdb libroId)
        else (fb.1, .error e)
      else
        (req, .error e)
  else
    (req, sqlBookDetail sdb libroId)

/-- Outcome of `views.change_data_source`. -/
inductive ChangeSourceOutcome where
  | badRequest
  | redirectTo (url : String)
  deriving DecidableEq

/-- Python `a or b` on an optional string: the empty string is falsy. -/
def pyStrOr (a : Option String) (b : String) : String :=
  match a with
  | some s => if s = "" then b else s
  | none => b

/-- `views.change_data_source`: reject unknown sources with 400; refuse a
switch to Mongo — before touching the session — when
`mongo_repository.is_available()` is false (pure driver detection);
otherwise persist the choice and flash an info message. -/
def change_data_source (env : MongoEnv) (req : RequestState) (sourceParam : Option String)
    (nextParam : Option String) (referer : Option String) :
    RequestState × ChangeSourceOutcome :=
  let source := sourceParam.getD ""
  if !(dataSourceChoices.contains source) then
    (req, .badRequest)
  else
    let nextUrl := pyStrOr nextParam (pyStrOr referer "lista_libros")
    if source == DATA_SOURCE_MONGO && !(is_available env) then
      (addMessage req .error
        "MongoDB no está disponible. Instala `pymongo` y asegúrate de tener el servidor ejecutándose.",
       .redirectTo nextUrl)
    else
      let req1 := { req with session := set_active_data_source req.session source }
      let label := if source == DATA_SOURCE_MONGO then "MongoDB" else "SQLite"
      let req2 := addMessage req1 .info ("Se cambió la fuente de datos a " ++ label ++ ".")
      (req2, .redirectTo nextUrl)

/-- Outcome of `views.loan_return`. -/
inductive LoanReturnOutcome where
  | redirectDetail (bookId : String)
  | renderForm
  | failure (e : PyError)
  deriving DecidableEq

/-- The Mongo branch of `views.loan_return`: an already-returned loan
redirects without writing; a confirmed POST marks the loan returned (only
the `returned` field) and redirects. -/
def loan_return_mongo (env : MongoEnv) (db : MongoDB) (rawLoanId : String)
    (isPost : Bool) (confirm : Bool) : MongoDB × LoanReturnOutcome :=
  match MongoRepo.get_loan env db rawLoanId with
  | .error e => (db, .failure e)
  | .ok loan =>
    let bookId := match loan.book with | some b => b.id | none => ""
    if loan.returned then
      (db, .redirectDetail bookId)
    else if isPost && confirm then
      let marked := MongoRepo.mark_loan_returned env db loan.id
      match marked.2 with
      | .error e => (marked.1, .failure e)
      | .ok _ => (marked.1, .redirectDetail bookId)
    else
      (db, .renderForm)

/-- The SQL branch of `views.loan_return`: an already-returned loan
redirects without writing; a confirmed POST sets `returned = True`, runs
`full_clean` and saves the instance back to its row. -/
def loan_return_sql (db : SqlDB) (rawLoanId : String) (isPost : Bool) (confirm : Bool) :
    SqlDB × LoanReturnOutcome :=
  match parse_sql_id rawLoanId with
  | .error e => (db, .failure e)
  | .ok pk =>
    match db.loans.find? (fun l => l.pk == pk) with
    | none => (db, .failure (.http404 "No Loan matches the given query."))
    | some loan =>
      if loan.returned then
        (db, .redirectDetail (toString loan.bookPk))
      else if isPost && confirm then
        let updated : SqlLoanInstance :=
          { pk := some loan.pk, bookPk := loan.bookPk, userPk := loan.userPk
            startDate := loan.startDate, endDate := loan.endDate, returned := true }
        match loanClean db updated with
        | .error e => (db, .failure e)
        | .ok _ =>
          ({ db with loans := db.loans.map (fun l =>
              if l.pk == loan.pk then
                { pk := loan.pk, bookPk := updated.bookPk, userPk := updated.userPk,
                  startDate := updated.startDate, endDate := updated.endDate,
                  returned := updated.returned }
              else l) },
           .redirectDetail (toString loan.bookPk))
      else
        (db, .renderForm)

/-! ## Shared facts and concrete fixtures -/

lemma requireClient_ok {env : MongoEnv} (hd : env.driverPresent = true)
    (hr : env.serverReachable = true) : requireClient env = .ok () := by
  simp [requireClient, is_available, hd, hr]

lemma objectId_ok {env : MongoEnv} {raw : String} (hd : env.driverPresent = true)
    (hv : validObjectId raw = true) : objectId env raw = .ok raw := by
  simp [objectId, hd, hv]

/-- A healthy runtime: driver importable, server reachable. -/
def envOk : MongoEnv := { driverPresent := true, serverReachable := true, failureDetail := "" }

/-- pymongo is not importable. -/
def envNoDriver : MongoEnv := { driverPresent := false, serverReachable := true, failureDetail := "" }

def emptyMongoDB : MongoDB := { authors := [], users := [], books := [], loans := [] }

def emptySqlDB : SqlDB := { authors := [], books := [], users := [], loans := [] }

def hexA : String := "aaaaaaaaaaaaaaaaaaaaaaaa"

def hexB : String := "bbbbbbbbbbbbbbbbbbbbbbbb"

def hexC : String := "cccccccccccccccccccccccc"

def hexD : String := "dddddddddddddddddddddddd"

def hexE : String := "eeeeeeeeeeeeeeeeeeeeeeee"

/-- An arbitrary runtime with the given flags. -/
def mongoEnvWith (d r : Bool) (f : String) : MongoEnv :=
  { driverPresent := d, serverReachable := r, failureDetail := f }

/-- A request whose session has the relational backend active. -/
def reqSql : RequestState := { session := { libraryDataSource := some "sql" }, messages := [] }

/-- A request whose session has the Document backend active. -/
def reqMongo : RequestState := { session := { libraryDataSource := some "mongo" }, messages := [] }

/-! ## Claim 9 -/

/-- C9: requesting a switch of the active backend to Document while the
Document driver is absent is refused with a user-facing error message,
performs no session mutation, and the refusal depends only on static
driver presence — the outcome is invariant under server reachability. -/
theorem claim9_switch_refused_no_mutation (env : MongoEnv) (req : RequestState)
    (nextParam referer : Option String) (hd : env.driverPresent = false) :
    (change_data_source env req (some DATA_SOURCE_MONGO) nextParam referer).1.session =
      req.session ∧
    (change_data_source env req (some DATA_SOURCE_MONGO) nextParam referer).1.messages =
      req.messages ++ [{ level := MessageLevel.error, text := "MongoDB no está disponible. Instala `pymongo` y asegúrate de tener el servidor ejecutándose." }] ∧
    (change_data_source env req (some DATA_SOURCE_MONGO) nextParam referer).2 =
      ChangeSourceOutcome.redirectTo (pyStrOr nextParam (pyStrOr referer "lista_libros")) ∧
    (∀ r1 r2 f1 f2 src nx rf,
      change_data_source (mongoEnvWith env.driverPresent r1 f1) req src nx rf =
        change_data_source (mongoEnvWith env.driverPresent r2 f2) req src nx rf) := by
  refine ⟨?_, ?_, ?_, ?_⟩ <;>
    simp [change_data_source, is_available, mongoEnvWith, hd, dataSourceChoices,
      DATA_SOURCE_MONGO, DATA_SOURCE_SQL, addMessage]

/-- Witness for C9 at a concrete session and request. -/
theorem claim9_witness :
    (change_data_source envNoDriver reqSql (some DATA_SOURCE_MONGO) none none).1.session =
      reqSql.session ∧
    (change_data_source envNoDriver reqSql (some DATA_SOURCE_MONGO) none none).1.messages =
      reqSql.messages ++ [{ level := MessageLevel.error, text := "MongoDB no está disponible. Instala `pymongo` y asegúrate de tener el servidor ejecutándose." }] ∧
    (change_data_source envNoDriver reqSql (some DATA_SOURCE_MONGO) none none).2 =
      ChangeSourceOutcome.redirectTo (pyStrOr none (pyStrOr none "lista_libros")) ∧
    (∀ r1 r2 f1 f2 src nx rf,
      change_data_source (mongoEnvWith envNoDriver.driverPresent r1 f1) reqSql src nx rf =
        change_data_source (mongoEnvWith envNoDriver.driverPresent r2 f2) reqSql src nx rf) :=
  claim9_switch_refused_no_mutation envNoDriver reqSql none none rfl

/-! ## Claim 2 -/

/-- C2 counterexample: with the driver absent, the Document-repository
operation `get_book_detail` raises a plain `RuntimeError` (from
`_object_id`), which is not the distinguished `MongoUnavailableError`, so
the façade's `except MongoUnavailableError` handler does not recognize it. -/
theorem claim2_counterexample :
    MongoRepo.get_book_detail envNoDriver emptyMongoDB "not-a-valid-id" =
      .error (.runtimeError "pymongo no está disponible") ∧
    (PyError.runtimeError "pymongo no está disponible").isMongoUnavailable = false := by
  exact ⟨rfl, rfl⟩

/-- C2 as amended: `_require_client` failures (driver missing, or probe /
connection failure) are always the distinguished `MongoUnavailableError`,
and operations whose first backend touch is the client — such as
`list_books` — therefore fail with it; but `_object_id` raises a plain
generic `RuntimeError` when the driver is absent, so identity-parsing
operations invoked without the driver do not raise the distinguished
failure. -/
theorem claim2_amended_unavailable_kinds (env : MongoEnv) (db : MongoDB) (raw : String)
    (h : env.driverPresent = false ∨ env.serverReachable = false) :
    (∃ m, requireClient env = .error (.mongoUnavailable m) ∧
          MongoRepo.list_books env db = .error (.mongoUnavailable m)) ∧
    (env.driverPresent = false →
      objectId env raw = .error (.runtimeError "pymongo no está disponible")) := by
  constructor
  · have hreq : ∃ m, requireClient env = .error (.mongoUnavailable m) := by
      rcases h with h | h
      · exact ⟨"pymongo no está instalado. Ejecuta `pip install pymongo` para habilitar la fuente Mongo.",
          by simp [requireClient, is_available, h]⟩
      · rcases hd : env.driverPresent with _ | _
        · exact ⟨"pymongo no está instalado. Ejecuta `pip install pymongo` para habilitar la fuente Mongo.",
            by simp [requireClient, is_available, hd]⟩
        · exact ⟨"No se pudo conectar a MongoDB (" ++ env.failureDetail ++ ").",
            by simp [requireClient, is_available, hd, h]⟩
    rcases hreq with ⟨m, hm⟩
    exact ⟨m, hm, by simp [MongoRepo.list_books, hm]⟩
  · intro hd
    simp [objectId, hd]

/-- Witness for C2's amended statement at a concrete unavailable runtime. -/
theorem claim2_amended_witness :
    (∃ m, requireClient envNoDriver = .error (.mongoUnavailable m) ∧
          MongoRepo.list_books envNoDriver emptyMongoDB = .error (.mongoUnavailable m)) ∧
    (envNoDriver.driverPresent = false →
      objectId envNoDriver hexA = .error (.runtimeError "pymongo no está disponible")) :=
  claim2_amended_unavailable_kinds envNoDriver emptyMongoDB hexA (Or.inl rfl)

/-! ## Claim 1 -/

/-- C1: with the Document backend active, if the Document repository
raises `BackendUnavailable` then `book_list` persists `'sql'` as the
session's active backend, attaches a user-visible message naming the
failure reason, produces its result from the relational query executed
exactly once within the same request, and does not re-attempt the
Document backend (one Document call in the whole request). -/
theorem claim1_fallback_single_retry (env : MongoEnv) (mdb : MongoDB) (sdb : SqlDB)
    (req : RequestState) (e : PyError)
    (hact : get_active_data_source req.session = DATA_SOURCE_MONGO)
    (hfail : MongoRepo.list_books env mdb = .error e)
    (hkind : e.isMongoUnavailable = true) :
    (book_list env mdb sdb req).1.session.libraryDataSource = some DATA_SOURCE_SQL ∧
    get_active_data_source (book_list env mdb sdb req).1.session = DATA_SOURCE_SQL ∧
    (book_list env mdb sdb req).1.messages =
      req.messages ++ [{ level := MessageLevel.error, text := "No se pudo usar MongoDB: " ++ e.msg ++ ". Cambiamos automáticamente a SQLite." }] ∧
    (book_list env mdb sdb req).2.1 = .ok (BooksPayload.fromSql (sqlListBooks sdb), false) ∧
    (book_list env mdb sdb req).2.2 = [BackendCall.mongoListBooks, BackendCall.sqlListBooks] ∧
    (book_list env mdb sdb req).2.2.count BackendCall.mongoListBooks = 1 ∧
    (book_list env mdb sdb req).2.2.count BackendCall.sqlListBooks = 1 := by
  have hmain : book_list env mdb sdb req =
      ((fallback_to_sql req e.msg).1,
       .ok (BooksPayload.fromSql (sqlListBooks sdb), false),
       [BackendCall.mongoListBooks, BackendCall.sqlListBooks]) := by
    simp [book_list, hact, hfail, hkind, fallback_to_sql, DATA_SOURCE_SQL, DATA_SOURCE_MONGO]
  rw [hmain]
  refine ⟨?_, ?_, ?_, rfl, rfl, ?_, ?_⟩ <;>
    simp [fallback_to_sql, addMessage, set_active_data_source, get_active_data_source,
      dataSourceChoices, DATA_SOURCE_SQL, DATA_SOURCE_MONGO, List.count_cons]

/-- The `MongoUnavailableError` raised when pymongo is missing. -/
def mongoDownErr : PyError :=
  .mongoUnavailable "pymongo no está instalado. Ejecuta `pip install pymongo` para habilitar la fuente Mongo."

/-- Witness for C1 at a concrete unavailable runtime and Mongo-active
session. -/
theorem claim1_witness :
    (book_list envNoDriver emptyMongoDB emptySqlDB reqMongo).1.session.libraryDataSource =
      some DATA_SOURCE_SQL ∧
    get_active_data_source (book_list envNoDriver emptyMongoDB emptySqlDB reqMongo).1.session =
      DATA_SOURCE_SQL ∧
    (book_list envNoDriver emptyMongoDB emptySqlDB reqMongo).1.messages =
      reqMongo.messages ++ [{ level := MessageLevel.error, text := "No se pudo usar MongoDB: " ++ mongoDownErr.msg ++ ". Cambiamos automáticamente a SQLite." }] ∧
    (book_list envNoDriver emptyMongoDB emptySqlDB reqMongo).2.1 =
      .ok (BooksPayload.fromSql (sqlListBooks emptySqlDB), false) ∧
    (book_list envNoDriver emptyMongoDB emptySqlDB reqMongo).2.2 =
      [BackendCall.mongoListBooks, BackendCall.sqlListBooks] ∧
    (book_list envNoDriver emptyMongoDB emptySqlDB reqMongo).2.2.count BackendCall.mongoListBooks = 1 ∧
    (book_list envNoDriver emptyMongoDB emptySqlDB reqMongo).2.2.count BackendCall.sqlListBooks = 1 :=
  claim1_fallback_single_retry envNoDriver emptyMongoDB emptySqlDB reqMongo mongoDownErr
    rfl rfl rfl

/-! ## Claim 10 -/

/-- C10: the Document backend's `create_book` and `update_book` store the
book's year as the missing value whenever the supplied year equals 0
(Python truthiness of `data.get('year')`) and as the given integer for
every positive year, so a valid year of 0 is never persisted as 0. -/
theorem claim10_year_zero_not_persisted (env : MongoEnv) (db : MongoDB)
    (data : MongoRepo.MongoBookInput) (freshId rawBookId : String) (b : BookDoc)
    (hd : env.driverPresent = true) (hr : env.serverReachable = true)
    (hva : validObjectId data.author = true) (hna : data.author ≠ "")
    (hvb : validObjectId rawBookId = true) (hmem : b ∈ db.books) (hbid : b.id = rawBookId) :
    (∃ doc, (MongoRepo.create_book env db data freshId).1.books = db.books ++ [doc] ∧
      (MongoRepo.create_book env db data freshId).2 = .ok freshId ∧
      (data.year = 0 → doc.year = none) ∧ (0 < data.year → doc.year = some data.year)) ∧
    (∃ db2 ub, MongoRepo.update_book env db rawBookId data = (db2, .ok ()) ∧
      ub ∈ db2.books ∧ ub.id = b.id ∧
      (data.year = 0 → ub.year = none) ∧ (0 < data.year → ub.year = some data.year)) := by
  constructor
  · refine ⟨{ id := freshId, title := data.title, year := if data.year ≠ 0 then some data.year else none, authorId := data.author }, ?_, ?_, ?_, ?_⟩
    · simp [MongoRepo.create_book, hna, objectId_ok hd hva, requireClient_ok hd hr]
    · simp [MongoRepo.create_book, hna, objectId_ok hd hva, requireClient_ok hd hr]
    · intro h0
      simp [h0]
    · intro hpos
      simp [Nat.pos_iff_ne_zero.mp hpos]
  · refine ⟨(MongoRepo.update_book env db rawBookId data).1,
      { b with title := data.title, year := if data.year ≠ 0 then some data.year else none, authorId := data.author }, ?_, ?_, rfl, ?_, ?_⟩
    · have h2 : (MongoRepo.update_book env db rawBookId data).2 = .ok () := by
        simp [MongoRepo.update_book, objectId_ok hd hvb, objectId_ok hd hva, hna,
          requireClient_ok hd hr, Except.map]
      exact Prod.ext rfl h2
    · have hb1 : (MongoRepo.update_book env db rawBookId data).1.books =
          db.books.map (fun bk =>
            if bk.id == rawBookId then
              { bk with title := data.title, year := if data.year ≠ 0 then some data.year else none, authorId := data.author }
            else bk) := by
        simp [MongoRepo.update_book, objectId_ok hd hvb, objectId_ok hd hva, hna,
          requireClient_ok hd hr, Except.map]
      rw [hb1]
      refine List.mem_map.mpr ⟨b, hmem, ?_⟩
      simp [hbid]
    · intro h0
      simp [h0]
    · intro hpos
      simp [Nat.pos_iff_ne_zero.mp hpos]

/-- Witness for C10: a concrete create/update with year 0. -/
theorem claim10_witness :
    (∃ doc, (MongoRepo.create_book envOk { authors := [], users := [], books := [{ id := hexB, title := "T", year := some 7, authorId := hexA }], loans := [] } { title := "T2", year := 0, author := hexA } hexC).1.books = [{ id := hexB, title := "T", year := some 7, authorId := hexA }] ++ [doc] ∧
      (MongoRepo.create_book envOk { authors := [], users := [], books := [{ id := hexB, title := "T", year := some 7, authorId := hexA }], loans := [] } { title := "T2", year := 0, author := hexA } hexC).2 = .ok hexC ∧
      ((0 : Nat) = 0 → doc.year = none) ∧ ((0 : Nat) < 0 → doc.year = some 0)) ∧
    (∃ db2 ub, MongoRepo.update_book envOk { authors := [], users := [], books := [{ id := hexB, title := "T", year := some 7, authorId := hexA }], loans := [] } hexB { title := "T2", year := 0, author := hexA } = (db2, .ok ()) ∧
      ub ∈ db2.books ∧ ub.id = hexB ∧
      ((0 : Nat) = 0 → ub.year = none) ∧ ((0 : Nat) < 0 → ub.year = some 0)) :=
  claim10_year_zero_not_persisted envOk
    { authors := [], users := [], books := [{ id := hexB, title := "T", year := some 7, authorId := hexA }], loans := [] }
    { title := "T2", year := 0, author := hexA } hexC hexB
    { id := hexB, title := "T", year := some 7, authorId := hexA }
    rfl rfl (by decide) (by decide) (by decide) (by simp) rfl

/-! ## Claim 3 -/

lemma charListLe_total : ∀ (a b : List Char), charListLe a b = true ∨ charListLe b a = true := by
  intro a
  induction a with
  | nil =>
    intro b
    left
    rfl
  | cons c cs ih =>
    intro b
    cases b with
    | nil =>
      right
      rfl
    | cons d ds =>
      by_cases h1 : c < d
      · left
        simp [charListLe, h1]
      · by_cases h2 : d < c
        · right
          simp [charListLe, h2]
        · rcases ih ds with h | h
          · left
            simp [charListLe, h1, h2, h]
          · right
            simp [charListLe, h1, h2, h]

lemma charListLe_trans : ∀ (a b c : List Char), charListLe a b = true →
    charListLe b c = true → charListLe a c = true := by
  intro a
  induction a with
  | nil =>
    intro b c _ _
    rfl
  | cons x xs ih =>
    intro b c hab hbc
    cases b with
    | nil => simp [charListLe] at hab
    | cons y ys =>
      cases c with
      | nil => simp [charListLe] at hbc
      | cons z zs =>
        by_cases hxy : x < y
        · by_cases hyz : y < z
          · simp [charListLe, lt_trans hxy hyz]
          · by_cases hzy : z < y
            · simp [charListLe, hyz, hzy] at hbc
            · have hyzeq : y = z := le_antisymm (not_lt.mp hzy) (not_lt.mp hyz)
              simp [charListLe, hyzeq ▸ hxy]
        · by_cases hyx : y < x
          · simp [charListLe, hxy, hyx] at hab
          · have hxyeq : x = y := le_antisymm (not_lt.mp hyx) (not_lt.mp hxy)
            subst hxyeq
            by_cases hxz : x < z
            · simp [charListLe, hxz]
            · by_cases hzx : z < x
              · simp [charListLe, hzx] at hbc
                by_cases hxz2 : x < z
                · exact absurd hxz2 hxz
                · simp [hxz2] at hbc
              · have hab2 : charListLe xs ys = true := by
                  simpa [charListLe, hxy, hyx] using hab
                have hbc2 : charListLe ys zs = true := by
                  simpa [charListLe, hxz, hzx] using hbc
                simp [charListLe, hxz, hzx, ih ys zs hab2 hbc2]

/-- A Document store whose `books` collection holds titles out of order. -/
def mdbOutOfOrder : MongoDB :=
  { authors := [], users := [],
    books := [{ id := hexB, title := "B", year := none, authorId := "" }, { id := hexA, title := "A", year := none, authorId := "" }],
    loans := [] }

def mongoBookB : MongoBook :=
  { id := hexB, title := "B", year := none, author := { id := "", name := "Autor desconocido" } }

def mongoBookA : MongoBook :=
  { id := hexA, title := "A", year := none, author := { id := "", name := "Autor desconocido" } }

/-- C3 counterexample: under the Document backend, `list_books` applies no
sort: a store whose collection holds titles ["B", "A"] is listed as
["B", "A"], which is not ascending ("B" ≤ "A" fails), contradicting the
claim that listBooks is sorted by title on both backends. -/
theorem claim3_counterexample :
    MongoRepo.list_books envOk mdbOutOfOrder = .ok [mongoBookB, mongoBookA] ∧
    (mongoBookB.title = "B" ∧ mongoBookA.title = "A") ∧
    strLe "B" "A" = false := by
  refine ⟨by rfl, ⟨rfl, rfl⟩, by decide⟩

/-- C3 as amended: under the Relational backend `listBooks` is sorted by
title ascending (`Book.Meta.ordering`), while under the Document backend
`list_books` returns the books in collection order, titles unpermuted. -/
theorem claim3_amended_sorting (sdb : SqlDB) (env : MongoEnv) (mdb : MongoDB)
    (books : List MongoBook) (h : MongoRepo.list_books env mdb = .ok books) :
    (sqlListBooks sdb).Pairwise (fun a b => strLe a.title b.title = true) ∧
    books.map MongoBook.title = mdb.books.map safeTitle := by
  constructor
  · haveI htot : IsTotal SqlBook (fun a b => strLe a.title b.title = true) :=
      ⟨fun a b => charListLe_total a.title.data b.title.data⟩
    haveI htr : IsTrans SqlBook (fun a b => strLe a.title b.title = true) :=
      ⟨fun a b c => charListLe_trans a.title.data b.title.data c.title.data⟩
    exact List.sorted_insertionSort _ _
  · cases hreq : requireClient env with
    | error e => simp [MongoRepo.list_books, hreq] at h
    | ok u =>
      by_cases hemp : mdb.books.isEmpty
      · have hdocs : mdb.books = [] := List.isEmpty_iff.mp hemp
        simp [MongoRepo.list_books, hreq, hemp] at h
        rw [h, hdocs]
        rfl
      · simp only [MongoRepo.list_books, hreq, hemp] at h
        simp at h
        rw [← h, List.map_map]
        rfl

/-- Witness for C3's amended statement at concrete stores. -/
theorem claim3_amended_witness :
    (sqlListBooks { authors := [], books := [{ pk := 1, title := "B", year := 2000, authorPk := 1 }, { pk := 2, title := "A", year := 2001, authorPk := 1 }], users := [], loans := [] }).Pairwise
      (fun a b => strLe a.title b.title = true) ∧
    ([mongoBookB, mongoBookA]).map MongoBook.title = mdbOutOfOrder.books.map safeTitle :=
  claim3_amended_sorting
    { authors := [], books := [{ pk := 1, title := "B", year := 2000, authorPk := 1 }, { pk := 2, title := "A", year := 2001, authorPk := 1 }], users := [], loans := [] }
    envOk mdbOutOfOrder [mongoBookB, mongoBookA] (by rfl)

/-! ## Claim 7 -/

lemma any_map_general {α β : Type} (f : α → β) (l : List α) (p : β → Bool) :
    (l.map f).any p = l.any (fun a => p (f a)) := by
  induction l with
  | nil => rfl
  | cons a t ih => simp [ih]

lemma any_insertionSort {α : Type} (r : α → α → Prop) [DecidableRel r] (l : List α)
    (p : α → Bool) : (l.insertionSort r).any p = l.any p := by
  rw [Bool.eq_iff_iff]
  simp only [List.any_eq_true]
  constructor
  · rintro ⟨x, hx, hp⟩
    exact ⟨x, (List.perm_insertionSort r l).mem_iff.mp hx, hp⟩
  · rintro ⟨x, hx, hp⟩
    exact ⟨x, (List.perm_insertionSort r l).mem_iff.mpr hx, hp⟩

lemma detailStep_foldl_fst (users : List (String × MongoUser)) (bookSummary : MongoBook) :
    ∀ (l : List LoanDoc) (acc : Option MongoLoan × List MongoLoan),
      (l.foldl (MongoRepo.detailStep users bookSummary) acc).1.isSome =
        (acc.1.isSome || l.any (fun d => !d.returned)) := by
  intro l
  induction l with
  | nil =>
    intro acc
    simp
  | cons d t ih =>
    intro acc
    rw [List.foldl_cons, ih]
    have hstep : (MongoRepo.detailStep users bookSummary acc d).1.isSome = (acc.1.isSome || !d.returned) := by
      cases hA : acc.1 <;> cases hR : d.returned <;>
        simp [MongoRepo.detailStep, MongoRepo.buildDetailLoan, mkLoanFromDoc, hA, hR]
    rw [hstep]
    simp [Bool.or_assoc]

lemma detailStep_foldl_snd (users : List (String × MongoUser)) (bookSummary : MongoBook) :
    ∀ (l : List LoanDoc) (acc : Option MongoLoan × List MongoLoan),
      (l.foldl (MongoRepo.detailStep users bookSummary) acc).2 =
        acc.2 ++ l.map (MongoRepo.buildDetailLoan users bookSummary) := by
  intro l
  induction l with
  | nil =>
    intro acc
    simp
  | cons d t ih =>
    intro acc
    rw [List.foldl_cons, ih]
    simp [MongoRepo.detailStep]

/-- `Book.is_loaned` on the relational backend agrees with the existence
of an active loan row. -/
lemma sql_is_loaned_iff (db : SqlDB) (b : SqlBook) :
    b.is_loaned db = true ↔ ∃ l ∈ db.loans, l.bookPk = b.pk ∧ l.returned = false := by
  simp [SqlBook.is_loaned, List.any_eq_true]

/-- `_is_loaned` as computed by the Mongo `list_books` agrees with the
existence of an active loan document. -/
lemma mongo_list_flag_iff (env : MongoEnv) (db : MongoDB) (books : List MongoBook)
    (h : MongoRepo.list_books env db = .ok books) (bk : MongoBook) (hmem : bk ∈ books) :
    bk.is_loaned = true ↔ ∃ l ∈ db.loans, l.bookId = bk.id ∧ l.returned = false := by
  cases hreq : requireClient env with
  | error e => simp [MongoRepo.list_books, hreq] at h
  | ok u =>
    by_cases hemp : db.books.isEmpty
    · simp [MongoRepo.list_books, hreq, hemp] at h
      rw [h] at hmem
      simp at hmem
    · simp only [MongoRepo.list_books, hreq, hemp] at h
      simp at h
      rw [← h] at hmem
      obtain ⟨doc, hdoc, hfd⟩ := List.mem_map.mp hmem
      rw [← hfd]
      simp only [MongoBook.is_loaned]
      rw [loansByBook, any_map_general]
      have hpres : (fun d : LoanDoc => !(mkLoanFromDoc (usersById db ((db.loans.filter (fun l => (db.books.map (fun d => d.id)).contains l.bookId)).map (fun l => l.userId))) d).returned) = (fun d : LoanDoc => !d.returned) := by
        funext d
        simp [mkLoanFromDoc]
      rw [hpres, List.any_filter, List.any_filter]
      simp only [List.any_eq_true, Bool.and_eq_true, beq_iff_eq, Bool.not_eq_true']
      constructor
      · rintro ⟨l, hl, _, hbid, hret⟩
        exact ⟨l, hl, hbid, hret⟩
      · rintro ⟨l, hl, hbid, hret⟩
        refine ⟨l, hl, ?_, hbid, hret⟩
        rw [List.contains_eq_any_beq]
        simp only [List.any_eq_true, beq_iff_eq]
        exact ⟨doc.id, List.mem_map.mpr ⟨doc, hdoc, rfl⟩, hbid⟩

/-- `_is_loaned` as computed by the Mongo `get_book_detail` agrees with
the existence of an active loan document. -/
lemma mongo_detail_flag_iff (env : MongoEnv) (db : MongoDB) (raw : String) (bk : MongoBook)
    (al : Option MongoLoan) (hist : List MongoLoan)
    (h : MongoRepo.get_book_detail env db raw = .ok (bk, al, hist)) :
    bk.is_loaned = true ↔ ∃ l ∈ db.loans, l.bookId = bk.id ∧ l.returned = false := by
  cases hoid : objectId env raw with
  | error e => simp [MongoRepo.get_book_detail, hoid] at h
  | ok oid =>
    cases hreq : requireClient env with
    | error e => simp [MongoRepo.get_book_detail, hoid, hreq] at h
    | ok u =>
      cases hfind : db.books.find? (fun b => b.id == oid) with
      | none => simp [MongoRepo.get_book_detail, hoid, hreq, hfind] at h
      | some doc =>
        have hdocid : doc.id = oid := by
          have := List.find?_some hfind
          simpa using this
        simp only [MongoRepo.get_book_detail, hoid, hreq, hfind] at h
        simp at h
        obtain ⟨hbk, hal, hhist⟩ := h
        rw [← hbk]
        simp only [MongoBook.is_loaned]
        rw [detailStep_foldl_fst]
        rw [any_insertionSort, List.any_filter]
        simp only [Option.isSome_none, Bool.false_or, List.any_eq_true, Bool.and_eq_true,
          beq_iff_eq, Bool.not_eq_true', hdocid]

/-- C7: on either backend, `is_loaned` is true exactly when the book has
at least one loan with `returned = false` — for the relational
`Book.is_loaned`, and for the `_is_loaned` flag assembled by the Mongo
repository's `list_books` and `get_book_detail`. -/
theorem claim7_is_loaned_iff_active_loan :
    (∀ (db : SqlDB) (b : SqlBook),
      b.is_loaned db = true ↔ ∃ l ∈ db.loans, l.bookPk = b.pk ∧ l.returned = false) ∧
    (∀ (env : MongoEnv) (db : MongoDB) (books : List MongoBook),
      MongoRepo.list_books env db = .ok books →
      ∀ bk ∈ books, (bk.is_loaned = true ↔ ∃ l ∈ db.loans, l.bookId = bk.id ∧ l.returned = false)) ∧
    (∀ (env : MongoEnv) (db : MongoDB) (raw : String) (bk : MongoBook) (al : Option MongoLoan)
      (hist : List MongoLoan),
      MongoRepo.get_book_detail env db raw = .ok (bk, al, hist) →
      (bk.is_loaned = true ↔ ∃ l ∈ db.loans, l.bookId = bk.id ∧ l.returned = false)) :=
  ⟨sql_is_loaned_iff,
   fun env db books h bk hmem => mongo_list_flag_iff env db books h bk hmem,
   fun env db raw bk al hist h => mongo_detail_flag_iff env db raw bk al hist h⟩

/-- A relational store with one active loan. -/
def sdbLoan : SqlDB :=
  { authors := [{ pk := 1, name := "A" }],
    books := [{ pk := 1, title := "T", year := 2000, authorPk := 1 }],
    users := [{ pk := 1, name := "U", email := "e" }],
    loans := [{ pk := 1, bookPk := 1, userPk := 1, startDate := 1, endDate := 2, returned := false }] }

def sqlBookLoaned : SqlBook := { pk := 1, title := "T", year := 2000, authorPk := 1 }

/-- A Document store with one active loan. -/
def mdbLoan : MongoDB :=
  { authors := [],
    users := [{ id := hexD, name := "U", email := "e" }],
    books := [{ id := hexB, title := "T", year := none, authorId := "" }],
    loans := [{ id := hexC, bookId := hexB, userId := hexD, startDate := "1", endDate := "2", returned := false }] }

def mongoBookLoaned : MongoBook :=
  { id := hexB, title := "T", year := none, author := { id := "", name := "Autor desconocido" }, isLoanedFlag := true }

def detailLoanX : MongoLoan :=
  { id := hexC, user := { id := hexD, name := "U", email := "e" }, start_date := "1", end_date := "2", returned := false, book := some mongoBookLoaned }

/-- Witness for C7 at concrete stores holding one active loan. -/
theorem claim7_witness :
    (sqlBookLoaned.is_loaned sdbLoan = true ↔
      ∃ l ∈ sdbLoan.loans, l.bookPk = sqlBookLoaned.pk ∧ l.returned = false) ∧
    (mongoBookLoaned.is_loaned = true ↔
      ∃ l ∈ mdbLoan.loans, l.bookId = mongoBookLoaned.id ∧ l.returned = false) ∧
    (mongoBookLoaned.is_loaned = true ↔
      ∃ l ∈ mdbLoan.loans, l.bookId = mongoBookLoaned.id ∧ l.returned = false) :=
  ⟨claim7_is_loaned_iff_active_loan.1 sdbLoan sqlBookLoaned,
   claim7_is_loaned_iff_active_loan.2.1 envOk mdbLoan [mongoBookLoaned] (by rfl)
     mongoBookLoaned (by simp),
   claim7_is_loaned_iff_active_loan.2.2 envOk mdbLoan hexB mongoBookLoaned
     (some detailLoanX) [detailLoanX] (by rfl)⟩

/-! ## Claim 5 -/

/-- A Document store whose single loan references a user document that
does not exist. -/
def mdbOrphan : MongoDB :=
  { authors := [],
    users := [],
    books := [{ id := hexB, title := "T", year := none, authorId := "" }],
    loans := [{ id := hexC, bookId := hexB, userId := hexD, startDate := "1", endDate := "2", returned := false }] }

/-- C5 counterexample: `get_loan` resolves the loan's user through
`get_user`, which raises `Http404` when the referenced user document is
missing — the read fails instead of degrading to the
`Usuario desconocido` sentinel. -/
theorem claim5_counterexample :
    MongoRepo.get_loan envOk mdbOrphan hexC = .error (.http404 "Usuario no encontrado") := by
  rfl

lemma dictGetUser_mem_or_default (db : MongoDB) (ids : List String) (k : String)
    (dflt : MongoUser) :
    dictGetUser (usersById db ids) k dflt = dflt ∨
      ∃ u ∈ db.users, dictGetUser (usersById db ids) k dflt = mkMongoUser u := by
  rw [dictGetUser]
  cases hf : (usersById db ids).find? (fun p => p.1 == k) with
  | none => exact Or.inl rfl
  | some p =>
    right
    have hp := List.mem_of_find?_eq_some hf
    rw [usersById] at hp
    simp only [List.mem_map, List.mem_filter] at hp
    obtain ⟨u, ⟨hu, _⟩, hpu⟩ := hp
    exact ⟨u, hu, by rw [← hpu]⟩

/-- C5 as amended: `get_book_detail` (and with it the list/detail reads
built on `_users_by_id` lookups) degrades gracefully — a missing author
document becomes the `Autor desconocido` sentinel, every assembled loan
user is either a real user document or the `Usuario desconocido` sentinel,
and the read completes successfully; but `get_loan` raises `Http404` when
the loan's referenced user or book document is missing. -/
theorem claim5_amended_sentinels (env : MongoEnv) (db : MongoDB) (raw : String) (doc : BookDoc)
    (hd : env.driverPresent = true) (hr : env.serverReachable = true)
    (hv : validObjectId raw = true)
    (hfind : db.books.find? (fun b => b.id == raw) = some doc) :
    ∃ book active hist,
      MongoRepo.get_book_detail env db raw = .ok (book, active, hist) ∧
      ((doc.authorId = "" ∨ db.authors.find? (fun a => a.id == doc.authorId) = none) →
        book.author = { id := "", name := "Autor desconocido" }) ∧
      (∀ l ∈ hist, (∃ u ∈ db.users, l.user = mkMongoUser u) ∨
        l.user = { id := "", name := "Usuario desconocido" }) := by
  have hoid : objectId env raw = .ok raw := objectId_ok hd hv
  have hreq : requireClient env = .ok () := requireClient_ok hd hr
  simp only [MongoRepo.get_book_detail, hoid, hreq, hfind]
  refine ⟨_, _, _, rfl, ?_, ?_⟩
  · intro hmiss
    rcases hmiss with hmiss | hmiss
    · simp [hmiss]
    · by_cases hempty : doc.authorId = ""
      · simp [hempty]
      · simp [hempty, hmiss]
  · intro l hl
    rw [detailStep_foldl_snd] at hl
    simp only [List.nil_append, List.map_map, List.mem_map] at hl
    obtain ⟨ld, _, hld⟩ := hl
    rw [← hld]
    simp only [Function.comp, MongoRepo.buildDetailLoan, mkLoanFromDoc]
    rcases dictGetUser_mem_or_default db
        ((db.loans.filter (fun x => x.bookId == raw)).map (fun x => x.userId)) ld.userId
        { id := "", name := "Usuario desconocido" } with hcase | ⟨u, hu, hcase⟩
    · right
      exact hcase
    · left
      exact ⟨u, hu, hcase⟩

/-- Witness for C5's amended statement: a store whose book has no author
document and whose loan references a missing user. -/
theorem claim5_amended_witness :
    ∃ book active hist,
      MongoRepo.get_book_detail envOk mdbOrphan hexB = .ok (book, active, hist) ∧
      ((({ id := hexB, title := "T", year := none, authorId := "" } : BookDoc).authorId = "" ∨
          mdbOrphan.authors.find? (fun a => a.id == ({ id := hexB, title := "T", year := none, authorId := "" } : BookDoc).authorId) = none) →
        book.author = { id := "", name := "Autor desconocido" }) ∧
      (∀ l ∈ hist, (∃ u ∈ mdbOrphan.users, l.user = mkMongoUser u) ∨
        l.user = { id := "", name := "Usuario desconocido" }) :=
  claim5_amended_sentinels envOk mdbOrphan hexB
    { id := hexB, title := "T", year := none, authorId := "" } rfl rfl (by decide) (by rfl)

/-! ## Claim 8 -/

/-- C8: a malformed identity string fails with the invalid-identifier
`Http404` — the spec's `InvalidIdentity`, distinct from any generic error
— on either active backend, before any query is dispatched: the outcome
of `book_detail` is the same for every store state and leaves the request
untouched. -/
theorem claim8_invalid_identity_uniform (env : MongoEnv) (raw : String)
    (hd : env.driverPresent = true)
    (hsql : pyIsDigit raw = false) (hmongo : validObjectId raw = false) :
    (∀ (req : RequestState) (mdb : MongoDB) (sdb : SqlDB),
      get_active_data_source req.session = DATA_SOURCE_MONGO →
      book_detail env mdb sdb req raw = (req, .error (.http404 "Identificador no válido"))) ∧
    (∀ (req : RequestState) (mdb : MongoDB) (sdb : SqlDB),
      get_active_data_source req.session = DATA_SOURCE_SQL →
      book_detail env mdb sdb req raw = (req, .error (.http404 "Identificador inválido"))) := by
  constructor
  · intro req mdb sdb hact
    have hoid : objectId env raw = .error (.http404 "Identificador no válido") := by
      simp [objectId, hd, hmongo]
    simp [book_detail, hact, MongoRepo.get_book_detail, hoid, PyError.isMongoUnavailable]
  · intro req mdb sdb hact
    have hparse : parse_sql_id raw = .error (.http404 "Identificador inválido") := by
      simp [parse_sql_id, hsql]
    simp [book_detail, hact, DATA_SOURCE_SQL, DATA_SOURCE_MONGO, sqlBookDetail, hparse]

/-- Witness for C8 at the spec's end-to-end input `"not-a-valid-id"`. -/
theorem claim8_witness :
    book_detail envOk emptyMongoDB emptySqlDB reqMongo "not-a-valid-id" =
      (reqMongo, .error (.http404 "Identificador no válido")) ∧
    book_detail envOk emptyMongoDB emptySqlDB reqSql "not-a-valid-id" =
      (reqSql, .error (.http404 "Identificador inválido")) :=
  ⟨(claim8_invalid_identity_uniform envOk "not-a-valid-id" rfl (by decide) (by decide)).1
      reqMongo emptyMongoDB emptySqlDB rfl,
   (claim8_invalid_identity_uniform envOk "not-a-valid-id" rfl (by decide) (by decide)).2
      reqSql emptyMongoDB emptySqlDB rfl⟩

/-! ## Claim 4 -/

lemma objectId_error_shape (env : MongoEnv) (raw : String) (e : PyError)
    (h : objectId env raw = .error e) :
    e = .runtimeError "pymongo no está disponible" ∨ e = .http404 "Identificador no válido" := by
  rcases hdp : env.driverPresent with _ | _
  · simp [objectId, hdp] at h
    exact Or.inl h.symm
  · rcases hv : validObjectId raw with _ | _
    · simp [objectId, hdp, hv] at h
      exact Or.inr h.symm
    · simp [objectId, hdp, hv] at h

/-- The Mongo `create_loan` fails with the conflict `ValueError` exactly
when the store currently holds an active loan for the book, and in that
case the store is unchanged (the raise happens before `insert_one`). -/
lemma mongo_conflict_iff (env : MongoEnv) (db : MongoDB) (rawBookId : String)
    (data : MongoRepo.MongoLoanInput) (freshId bid : String)
    (hoid : objectId env rawBookId = .ok bid)
    (hreq : requireClient env = .ok ()) :
    ((MongoRepo.create_loan env db rawBookId data freshId).2 =
        .error (.valueError "El libro ya está prestado.") ↔
      ∃ l ∈ db.loans, l.bookId = bid ∧ l.returned = false) ∧
    ((MongoRepo.create_loan env db rawBookId data freshId).2 =
        .error (.valueError "El libro ya está prestado.") →
      (MongoRepo.create_loan env db rawBookId data freshId).1 = db) := by
  cases hf : db.loans.find? (fun l => l.bookId == bid && !l.returned) with
  | some l =>
    have hres : MongoRepo.create_loan env db rawBookId data freshId =
        (db, .error (.valueError "El libro ya está prestado.")) := by
      simp [MongoRepo.create_loan, hoid, hreq, hf]
    constructor
    · rw [hres]
      have hm := List.mem_of_find?_eq_some hf
      have hp := List.find?_some hf
      simp only [Bool.and_eq_true, beq_iff_eq, Bool.not_eq_true'] at hp
      simp only [true_iff]
      exact ⟨l, hm, hp.1, hp.2⟩
    · intro _
      rw [hres]
  | none =>
    have hnc : (MongoRepo.create_loan env db rawBookId data freshId).2 ≠
        .error (.valueError "El libro ya está prestado.") := by
      by_cases hu : data.user = ""
      · simp [MongoRepo.create_loan, hoid, hreq, hf, hu]
      · cases ho2 : objectId env data.user with
        | error e =>
          simp only [MongoRepo.create_loan, hoid, hreq, hf, hu, ho2]
          rcases objectId_error_shape env data.user e ho2 with he | he <;> simp [hf, hu, he]
        | ok uoid =>
          simp [MongoRepo.create_loan, hoid, hreq, hf, hu, ho2]
    constructor
    · constructor
      · intro hcon
        exact absurd hcon hnc
      · rintro ⟨l, hl, h1, h2⟩
        exfalso
        have := List.find?_eq_none.mp hf l hl
        simp only [Bool.and_eq_true, beq_iff_eq, Bool.not_eq_true'] at this
        exact this ⟨h1, h2⟩
    · intro hcon
      exact absurd hcon hnc

/-- Creating a loan immediately after a successful `create_loan` for the
same book conflicts: the check is a fresh query against the stored loans,
so the just-inserted loan is seen. -/
lemma mongo_create_then_conflict (env : MongoEnv) (db db2 : MongoDB) (rawBookId : String)
    (d d2 : MongoRepo.MongoLoanInput) (f f2 pk : String)
    (hsucc : MongoRepo.create_loan env db rawBookId d f = (db2, .ok pk)) :
    (MongoRepo.create_loan env db2 rawBookId d2 f2).2 =
      .error (.valueError "El libro ya está prestado.") := by
  cases hoid : objectId env rawBookId with
  | error e => simp [MongoRepo.create_loan, hoid] at hsucc
  | ok bid =>
    cases hreq : requireClient env with
    | error e => simp [MongoRepo.create_loan, hoid, hreq] at hsucc
    | ok u =>
      cases u
      cases hf : db.loans.find? (fun l => l.bookId == bid && !l.returned) with
      | some l => simp [MongoRepo.create_loan, hoid, hreq, hf] at hsucc
      | none =>
        by_cases hu : d.user = ""
        · simp [MongoRepo.create_loan, hoid, hreq, hf, hu] at hsucc
        · cases ho2 : objectId env d.user with
          | error e => simp [MongoRepo.create_loan, hoid, hreq, hf, hu, ho2] at hsucc
          | ok uoid =>
            simp [MongoRepo.create_loan, hoid, hreq, hf, hu, ho2] at hsucc
            obtain ⟨h1, h2⟩ := hsucc
            subst h1
            simp [MongoRepo.create_loan, hoid, hreq, List.find?_append, hf]

/-- The relational create-loan path fails with the conflict error exactly
when the book currently has an active loan, and then inserts nothing. -/
lemma sql_conflict_iff (db : SqlDB) (book : SqlBook) (inp : SqlLoanInput) (freshPk : Nat) :
    (sqlFailsWithConflict (sqlCreateLoan db book inp freshPk).2 = true ↔
      ∃ l ∈ db.loans, l.bookPk = book.pk ∧ l.returned = false) ∧
    (sqlFailsWithConflict (sqlCreateLoan db book inp freshPk).2 = true →
      (sqlCreateLoan db book inp freshPk).1 = db) := by
  by_cases hld : book.is_loaned db = true
  · have herrs : loanFormErrors db book inp =
        (if inp.endDate < inp.startDate then [FormError.endDateBeforeStart] else []) ++
          [FormError.bookAlreadyLoaned] := by
      simp [loanFormErrors, hld]
    have hne : (loanFormErrors db book inp).isEmpty = false := by
      rw [herrs]
      by_cases hdate : inp.endDate < inp.startDate <;> simp [hdate]
    have hres : sqlCreateLoan db book inp freshPk =
        (db, .invalid (loanFormErrors db book inp)) := by
      simp [sqlCreateLoan, hne]
    constructor
    · rw [hres]
      simp only [sqlFailsWithConflict, herrs]
      constructor
      · intro _
        exact (sql_is_loaned_iff db book).mp hld
      · intro _
        by_cases hdate : inp.endDate < inp.startDate <;> simp [hdate]
    · intro _
      rw [hres]
  · have hld2 : book.is_loaned db = false := by
      exact Bool.not_eq_true _ ▸ eq_false_of_ne_true hld
    have herrs : loanFormErrors db book inp =
        (if inp.endDate < inp.startDate then [FormError.endDateBeforeStart] else []) := by
      simp [loanFormErrors, hld2]
    have hnc : sqlFailsWithConflict (sqlCreateLoan db book inp freshPk).2 = false := by
      by_cases hdate : inp.endDate < inp.startDate
      · have : sqlCreateLoan db book inp freshPk =
            (db, .invalid [FormError.endDateBeforeStart]) := by
          simp [sqlCreateLoan, herrs, hdate]
        rw [this]
        simp [sqlFailsWithConflict]
      · have hempt : (loanFormErrors db book inp).isEmpty = true := by
          simp [herrs, hdate]
        have hclean : loanClean db { pk := none, bookPk := book.pk, userPk := inp.userPk, startDate := inp.startDate, endDate := inp.endDate, returned := false } = .ok () := by
          simp [loanClean, hdate]
          intro x hx hb
          have hany := hld2
          simp [SqlBook.is_loaned, List.any_eq_true] at hany
          exact hany x hx hb
        have hrow : sqlCreateLoan db book inp freshPk = ({ db with loans := db.loans ++ [({ pk := freshPk, bookPk := book.pk, userPk := inp.userPk, startDate := inp.startDate, endDate := inp.endDate, returned := false } : SqlLoan)] }, .created freshPk) := by
          simp [sqlCreateLoan, hempt, hclean]
        rw [hrow]
        simp [sqlFailsWithConflict]
    constructor
    · rw [hnc]
      constructor
      · intro h
        exact absurd h (by decide)
      · rintro ⟨l, hl, h1, h2⟩
        exfalso
        have : book.is_loaned db = true := (sql_is_loaned_iff db book).mpr ⟨l, hl, h1, h2⟩
        rw [hld2] at this
        exact absurd this (by decide)
    · intro h
      rw [hnc] at h
      exact absurd h (by decide)

/-- `Loan.clean` raises the conflict `ValidationError` exactly when an
active loan for the same book exists, the instance being edited excluded
by primary key. -/
lemma loanClean_conflict_iff (db : SqlDB) (loan : SqlLoanInstance)
    (hdate : ¬ loan.endDate < loan.startDate) :
    (loanClean db loan = .error (.validationError "El libro ya está prestado.") ↔
      loan.returned = false ∧ ∃ l ∈ db.loans, l.bookPk = loan.bookPk ∧ l.returned = false ∧
        (∀ p, loan.pk = some p → l.pk ≠ p)) := by
  have hmatch : ∀ (l : SqlLoan),
      ((match loan.pk with | some p => l.pk != p | none => true) = true) ↔
        (∀ p, loan.pk = some p → l.pk ≠ p) := by
    intro l
    cases hpk : loan.pk with
    | none => simp
    | some p => simp [bne_iff_ne]
  rw [loanClean, if_neg hdate]
  by_cases hc : (!loan.returned && db.loans.any fun l =>
      l.bookPk == loan.bookPk && l.returned == false &&
        (match loan.pk with | some p => l.pk != p | none => true)) = true
  · rw [if_pos hc]
    simp only [Bool.and_eq_true, Bool.not_eq_true', List.any_eq_true, beq_iff_eq] at hc
    obtain ⟨hret, l, hl, hp⟩ := hc
    constructor
    · intro _
      exact ⟨hret, l, hl, hp.1.1, hp.1.2, (hmatch l).mp hp.2⟩
    · intro _
      rfl
  · rw [if_neg hc]
    constructor
    · intro h
      exact Except.noConfusion h
    · rintro ⟨hret, l, hl, h1, h2, h3⟩
      exfalso
      apply hc
      simp only [Bool.and_eq_true, Bool.not_eq_true', List.any_eq_true, beq_iff_eq]
      exact ⟨hret, l, hl, ⟨h1, h2⟩, (hmatch l).mpr h3⟩

/-- C4: on either backend `createLoan` fails with the conflict error
exactly when the target book has an active loan at write time (the loan
being edited excluded, where a pk exists), the check is a fresh query —
a loan created by a just-completed call is seen — and on conflict no loan
is inserted. -/
theorem claim4_conflict_check_at_write_time :
    (∀ (env : MongoEnv) (db : MongoDB) (rawBookId : String) (data : MongoRepo.MongoLoanInput)
      (freshId bid : String), objectId env rawBookId = .ok bid → requireClient env = .ok () →
      (((MongoRepo.create_loan env db rawBookId data freshId).2 =
          .error (.valueError "El libro ya está prestado.") ↔
        ∃ l ∈ db.loans, l.bookId = bid ∧ l.returned = false) ∧
      ((MongoRepo.create_loan env db rawBookId data freshId).2 =
          .error (.valueError "El libro ya está prestado.") →
        (MongoRepo.create_loan env db rawBookId data freshId).1 = db))) ∧
    (∀ (db : SqlDB) (book : SqlBook) (inp : SqlLoanInput) (freshPk : Nat),
      (sqlFailsWithConflict (sqlCreateLoan db book inp freshPk).2 = true ↔
        ∃ l ∈ db.loans, l.bookPk = book.pk ∧ l.returned = false) ∧
      (sqlFailsWithConflict (sqlCreateLoan db book inp freshPk).2 = true →
        (sqlCreateLoan db book inp freshPk).1 = db)) ∧
    (∀ (db : SqlDB) (loan : SqlLoanInstance), ¬ loan.endDate < loan.startDate →
      (loanClean db loan = .error (.validationError "El libro ya está prestado.") ↔
        loan.returned = false ∧ ∃ l ∈ db.loans, l.bookPk = loan.bookPk ∧ l.returned = false ∧
          (∀ p, loan.pk = some p → l.pk ≠ p))) ∧
    (∀ (env : MongoEnv) (db db2 : MongoDB) (rawBookId : String)
      (d d2 : MongoRepo.MongoLoanInput) (f f2 pk : String),
      MongoRepo.create_loan env db rawBookId d f = (db2, .ok pk) →
      (MongoRepo.create_loan env db2 rawBookId d2 f2).2 =
        .error (.valueError "El libro ya está prestado.")) :=
  ⟨fun env db rawBookId data freshId bid hoid hreq =>
      mongo_conflict_iff env db rawBookId data freshId bid hoid hreq,
   fun db book inp freshPk => sql_conflict_iff db book inp freshPk,
   fun db loan hdate => loanClean_conflict_iff db loan hdate,
   fun env db db2 rawBookId d d2 f f2 pk hsucc =>
      mongo_create_then_conflict env db db2 rawBookId d d2 f f2 pk hsucc⟩

/-- The Document store of `mdbLoan` before any loan exists. -/
def mdbNoLoan : MongoDB :=
  { authors := [],
    users := [{ id := hexD, name := "U", email := "e" }],
    books := [{ id := hexB, title := "T", year := none, authorId := "" }],
    loans := [] }

def loanInputX : MongoRepo.MongoLoanInput := { user := hexD, start_date := 3, end_date := 4 }

/-- `mdbNoLoan` right after a successful `create_loan`. -/
def mdbAfterCreate : MongoDB :=
  { authors := [],
    users := [{ id := hexD, name := "U", email := "e" }],
    books := [{ id := hexB, title := "T", year := none, authorId := "" }],
    loans := [{ id := hexE, bookId := hexB, userId := hexD, startDate := "3", endDate := "4", returned := false }] }

def sqlLoanInputX : SqlLoanInput := { userPk := 1, startDate := 3, endDate := 4 }

def loanInstX : SqlLoanInstance :=
  { pk := some 9, bookPk := 1, userPk := 1, startDate := 1, endDate := 2, returned := false }

/-- Witness for C4 at concrete stores holding an active loan. -/
theorem claim4_witness :
    (((MongoRepo.create_loan envOk mdbLoan hexB loanInputX hexE).2 =
        .error (.valueError "El libro ya está prestado.") ↔
      ∃ l ∈ mdbLoan.loans, l.bookId = hexB ∧ l.returned = false) ∧
     ((MongoRepo.create_loan envOk mdbLoan hexB loanInputX hexE).2 =
        .error (.valueError "El libro ya está prestado.") →
      (MongoRepo.create_loan envOk mdbLoan hexB loanInputX hexE).1 = mdbLoan)) ∧
    ((sqlFailsWithConflict (sqlCreateLoan sdbLoan sqlBookLoaned sqlLoanInputX 2).2 = true ↔
      ∃ l ∈ sdbLoan.loans, l.bookPk = sqlBookLoaned.pk ∧ l.returned = false) ∧
     (sqlFailsWithConflict (sqlCreateLoan sdbLoan sqlBookLoaned sqlLoanInputX 2).2 = true →
      (sqlCreateLoan sdbLoan sqlBookLoaned sqlLoanInputX 2).1 = sdbLoan)) ∧
    (loanClean sdbLoan loanInstX = .error (.validationError "El libro ya está prestado.") ↔
      loanInstX.returned = false ∧ ∃ l ∈ sdbLoan.loans, l.bookPk = loanInstX.bookPk ∧
        l.returned = false ∧ (∀ p, loanInstX.pk = some p → l.pk ≠ p)) ∧
    ((MongoRepo.create_loan envOk mdbAfterCreate hexB loanInputX hexC).2 =
      .error (.valueError "El libro ya está prestado.")) :=
  ⟨claim4_conflict_check_at_write_time.1 envOk mdbLoan hexB loanInputX hexE hexB rfl rfl,
   claim4_conflict_check_at_write_time.2.1 sdbLoan sqlBookLoaned sqlLoanInputX 2,
   claim4_conflict_check_at_write_time.2.2.1 sdbLoan loanInstX (by decide),
   claim4_conflict_check_at_write_time.2.2.2 envOk mdbNoLoan mdbAfterCreate hexB loanInputX
     loanInputX hexE hexC hexE (by rfl)⟩

/-! ## Claim 6 -/

/-- Shape of a successful `get_loan`: the loan document's fields, the
resolved user, and a resolved book whose id is the book document's. -/
lemma get_loan_shape (env : MongoEnv) (db : MongoDB) (rawLoanId : String) (ld : LoanDoc)
    (ud : UserDoc) (bd : BookDoc)
    (hd : env.driverPresent = true) (hr : env.serverReachable = true)
    (hvL : validObjectId rawLoanId = true)
    (hld : db.loans.find? (fun l => l.id == rawLoanId) = some ld)
    (hvU : validObjectId ld.userId = true)
    (hud : db.users.find? (fun u => u.id == ld.userId) = some ud)
    (hvB : validObjectId ld.bookId = true)
    (hbd : db.books.find? (fun b => b.id == ld.bookId) = some bd) :
    ∃ book : MongoBook, MongoRepo.get_loan env db rawLoanId =
      .ok { id := ld.id, user := mkMongoUser ud, start_date := ld.startDate, end_date := ld.endDate, returned := ld.returned, book := some book } ∧
      book.id = bd.id := by
  have hoid := objectId_ok hd hvL
  have hreq := requireClient_ok hd hr
  have hu : MongoRepo.get_user env db ld.userId = .ok (mkMongoUser ud) := by
    simp [MongoRepo.get_user, requireClient_ok hd hr, objectId_ok hd hvU, hud]
  have hgb : ∃ book, MongoRepo.get_book env db ld.bookId = .ok book ∧ book.id = bd.id := by
    simp only [MongoRepo.get_book, MongoRepo.get_book_detail, objectId_ok hd hvB,
      requireClient_ok hd hr, hbd]
    exact ⟨_, rfl, rfl⟩
  obtain ⟨book, hb, hbid⟩ := hgb
  refine ⟨book, ?_, hbid⟩
  simp [MongoRepo.get_loan, hoid, hreq, hld, hu, hb]

/-- The Mongo branch of `loan_return` is idempotent: the first confirmed
POST marks only the `returned` field and redirects; a second call
redirects without touching the store. -/
lemma loan_return_mongo_idempotent (env : MongoEnv) (db : MongoDB) (rawLoanId : String)
    (ld : LoanDoc) (ud : UserDoc) (bd : BookDoc)
    (hd : env.driverPresent = true) (hr : env.serverReachable = true)
    (hvL : validObjectId rawLoanId = true)
    (hld : db.loans.find? (fun l => l.id == rawLoanId) = some ld)
    (hvU : validObjectId ld.userId = true)
    (hud : db.users.find? (fun u => u.id == ld.userId) = some ud)
    (hvB : validObjectId ld.bookId = true)
    (hbd : db.books.find? (fun b => b.id == ld.bookId) = some bd)
    (hret : ld.returned = false) :
    ∃ db2, loan_return_mongo env db rawLoanId true true = (db2, .redirectDetail bd.id) ∧
      db2 = { db with loans := db.loans.map (fun l => if l.id == ld.id then { l with returned := true } else l) } ∧
      loan_return_mongo env db2 rawLoanId true true = (db2, .redirectDetail bd.id) := by
  have hldid : ld.id = rawLoanId := by simpa using List.find?_some hld
  obtain ⟨book, hloan, hbid⟩ := get_loan_shape env db rawLoanId ld ud bd hd hr hvL hld hvU hud hvB hbd
  refine ⟨_, ?_, rfl, ?_⟩
  · simp only [loan_return_mongo, hloan]
    simp only [hret, Bool.false_eq_true, if_false, Bool.and_self, if_true]
    simp [MongoRepo.mark_loan_returned, hldid, objectId_ok hd hvL, requireClient_ok hd hr, hbid]
  · have hcomp : ((fun l : LoanDoc => l.id == rawLoanId) ∘
        (fun l => if l.id == ld.id then { l with returned := true } else l)) =
        (fun l : LoanDoc => l.id == rawLoanId) := by
      funext l
      by_cases h : l.id == ld.id <;> simp [Function.comp, h]
    have hfind2 : (db.loans.map (fun l => if l.id == ld.id then { l with returned := true } else l)).find?
        (fun l => l.id == rawLoanId) = some { ld with returned := true } := by
      rw [List.find?_map, hcomp, hld]
      simp
    obtain ⟨book2, hloan2, hbid2⟩ := get_loan_shape env
      { db with loans := db.loans.map (fun l => if l.id == ld.id then { l with returned := true } else l) }
      rawLoanId { ld with returned := true } ud bd hd hr hvL hfind2 hvU hud hvB hbd
    simp only [loan_return_mongo, hloan2]
    simp [hbid2]

/-- The SQL branch of `loan_return` is idempotent: the first confirmed
POST saves the row with only `returned` flipped and redirects; a second
call redirects without touching the store. -/
lemma loan_return_sql_idempotent (db : SqlDB) (rawLoanId : String) (pk : Nat) (loan : SqlLoan)
    (hparse : parse_sql_id rawLoanId = .ok pk)
    (hfind : db.loans.find? (fun l => l.pk == pk) = some loan)
    (hret : loan.returned = false)
    (hdate : loan.startDate ≤ loan.endDate) :
    ∃ db2, loan_return_sql db rawLoanId true true = (db2, .redirectDetail (toString loan.bookPk)) ∧
      db2 = { db with loans := db.loans.map (fun l => if l.pk == loan.pk then { pk := loan.pk, bookPk := loan.bookPk, userPk := loan.userPk, startDate := loan.startDate, endDate := loan.endDate, returned := true } else l) } ∧
      loan_return_sql db2 rawLoanId true true = (db2, .redirectDetail (toString loan.bookPk)) := by
  have hpk : loan.pk = pk := by simpa using List.find?_some hfind
  have hclean : loanClean db { pk := some loan.pk, bookPk := loan.bookPk, userPk := loan.userPk, startDate := loan.startDate, endDate := loan.endDate, returned := true } = .ok () := by
    simp [loanClean, Nat.not_lt.mpr hdate]
  refine ⟨_, ?_, rfl, ?_⟩
  · simp only [loan_return_sql, hparse, hfind]
    simp [hret, hclean]
  · have hcomp : ((fun l : SqlLoan => l.pk == pk) ∘
        (fun l => if l.pk == loan.pk then ({ pk := loan.pk, bookPk := loan.bookPk, userPk := loan.userPk, startDate := loan.startDate, endDate := loan.endDate, returned := true } : SqlLoan) else l)) =
        (fun l : SqlLoan => l.pk == pk) := by
      funext l
      by_cases h : l.pk == loan.pk
      · have : l.pk = loan.pk := by simpa using h
        simp [Function.comp, h, this, hpk]
      · simp [Function.comp, h]
    have hfind2 : (db.loans.map (fun l => if l.pk == loan.pk then ({ pk := loan.pk, bookPk := loan.bookPk, userPk := loan.userPk, startDate := loan.startDate, endDate := loan.endDate, returned := true } : SqlLoan) else l)).find?
        (fun l => l.pk == pk) = some ({ pk := loan.pk, bookPk := loan.bookPk, userPk := loan.userPk, startDate := loan.startDate, endDate := loan.endDate, returned := true } : SqlLoan) := by
      rw [List.find?_map, hcomp, hfind]
      simp [hpk]
    simp only [loan_return_sql, hparse, hfind2]
    simp

/-- C6: `returnLoan` is idempotent on both backends — after a successful
confirmed return, a second call does not raise, leaves `returned = true`,
follows the redirect path, and the store (in particular every other field
of the loan) is unchanged by the second call; the first call changes only
the `returned` field of the target loan. -/
theorem claim6_return_idempotent :
    (∀ (env : MongoEnv) (db : MongoDB) (rawLoanId : String) (ld : LoanDoc) (ud : UserDoc)
      (bd : BookDoc),
      env.driverPresent = true → env.serverReachable = true →
      validObjectId rawLoanId = true →
      db.loans.find? (fun l => l.id == rawLoanId) = some ld →
      validObjectId ld.userId = true →
      db.users.find? (fun u => u.id == ld.userId) = some ud →
      validObjectId ld.bookId = true →
      db.books.find? (fun b => b.id == ld.bookId) = some bd →
      ld.returned = false →
      ∃ db2, loan_return_mongo env db rawLoanId true true = (db2, .redirectDetail bd.id) ∧
        db2 = { db with loans := db.loans.map (fun l => if l.id == ld.id then { l with returned := true } else l) } ∧
        loan_return_mongo env db2 rawLoanId true true = (db2, .redirectDetail bd.id)) ∧
    (∀ (db : SqlDB) (rawLoanId : String) (pk : Nat) (loan : SqlLoan),
      parse_sql_id rawLoanId = .ok pk →
      db.loans.find? (fun l => l.pk == pk) = some loan →
      loan.returned = false →
      loan.startDate ≤ loan.endDate →
      ∃ db2, loan_return_sql db rawLoanId true true = (db2, .redirectDetail (toString loan.bookPk)) ∧
        db2 = { db with loans := db.loans.map (fun l => if l.pk == loan.pk then { pk := loan.pk, bookPk := loan.bookPk, userPk := loan.userPk, startDate := loan.startDate, endDate := loan.endDate, returned := true } else l) } ∧
        loan_return_sql db2 rawLoanId true true = (db2, .redirectDetail (toString loan.bookPk))) :=
  ⟨fun env db rawLoanId ld ud bd hd hr hvL hld hvU hud hvB hbd hret =>
      loan_return_mongo_idempotent env db rawLoanId ld ud bd hd hr hvL hld hvU hud hvB hbd hret,
   fun db rawLoanId pk loan hparse hfind hret hdate =>
      loan_return_sql_idempotent db rawLoanId pk loan hparse hfind hret hdate⟩

/-- Witness for C6 at concrete stores holding one active loan. -/
theorem claim6_witness :
    (∃ db2, loan_return_mongo envOk mdbLoan hexC true true = (db2, .redirectDetail hexB) ∧
      db2 = { mdbLoan with loans := mdbLoan.loans.map (fun l => if l.id == hexC then { l with returned := true } else l) } ∧
      loan_return_mongo envOk db2 hexC true true = (db2, .redirectDetail hexB)) ∧
    (∃ db2, loan_return_sql sdbLoan "1" true true = (db2, .redirectDetail (toString 1)) ∧
      db2 = { sdbLoan with loans := sdbLoan.loans.map (fun l => if l.pk == 1 then { pk := 1, bookPk := 1, userPk := 1, startDate := 1, endDate := 2, returned := true } else l) } ∧
      loan_return_sql db2 "1" true true = (db2, .redirectDetail (toString 1))) :=
  ⟨claim6_return_idempotent.1 envOk mdbLoan hexC
      { id := hexC, bookId := hexB, userId := hexD, startDate := "1", endDate := "2", returned := false }
      { id := hexD, name := "U", email := "e" }
      { id := hexB, title := "T", year := none, authorId := "" }
      rfl rfl (by decide) (by rfl) (by decide) (by rfl) (by decide) (by rfl) rfl,
   claim6_return_idempotent.2 sdbLoan "1" 1
      { pk := 1, bookPk := 1, userPk := 1, startDate := 1, endDate := 2, returned := false }
      (by rfl) (by rfl) rfl (by decide)⟩

end Library
